import Mathlib

/-!
Shallow embedding of the credential and token lifecycle subsystem of the
coffee-shop API (FastAPI + SQLAlchemy + python-jose), together with proofs of
the specified properties.

Conventions of the embedding:
* timestamps are seconds since the epoch, as `Nat`; `datetime.now(timezone.utc)`
  becomes an explicit `now : Nat` argument; `timedelta(minutes=m)` is `60 * m`,
  `timedelta(days=d)` is `86400 * d`;
* the database session (app.db.deps.get_db) becomes explicit state passing of a
  `DB` value; `scalars().first()` on a filtered select is `List.find?` with the
  conjunction of the where-clauses; ORM mutation of a fetched row is an
  id-keyed update of the corresponding list entry; `commit` has no further
  observable effect in this sequential model;
* a JWT produced by `jose.jwt.encode` is modelled as its payload claims plus
  the symmetric signing key; structural equality of `Jwt` values models string
  equality of the encoded compact tokens (distinct payloads or distinct keys
  yield distinct encoded strings); the algorithm is HS256 throughout;
* password hashing (passlib bcrypt, salted) is kept abstract: operations that
  call `verify_password` take the verifier as an oracle argument
  `vp : plain → digest → Bool`;
* `HTTPException(status_code, detail)` raised by a route is the `Except.error`
  component of the result.
-/

set_option autoImplicit false

namespace CoffeeShop

/-- The subset of `Settings` (app/core/config.py) that the token lifecycle
reads. `JWT_SECRET_KEY` and `JWT_REFRESH_SECRET_KEY` are distinct required
configuration fields with no defaults; `ACCESS_TOKEN_EXPIRE_MINUTES` defaults
to 30 and `REFRESH_TOKEN_EXPIRE_DAYS` to 7. -/
structure Settings where
  JWT_SECRET_KEY : String
  JWT_REFRESH_SECRET_KEY : String
  JWT_ISSUER : String
  ACCESS_TOKEN_EXPIRE_MINUTES : Nat
  REFRESH_TOKEN_EXPIRE_DAYS : Nat
  deriving DecidableEq, Repr

/-- Payload claims of a JWT as assembled by `create_token`
(app/core/security.py): the caller-supplied data ("sub", for tokens issued by
this app) plus "exp", "iat", "type", "iss". A "scopes" claim is absent from
every token this app issues; `payload.get("scopes", [])` in `get_current_user`
is modelled by the `scopes` field with default `[]`, and `payload.get("sub")`
returning None for a missing claim is modelled by `sub : Option String`. -/
structure JwtClaims where
  sub : Option String
  scopes : List String
  type : String
  exp : Nat
  iat : Nat
  iss : String
  deriving DecidableEq, Repr

/-- A token string produced by `jose.jwt.encode(claims, key, algorithm=HS256)`:
the claims together with the signing key. -/
structure Jwt where
  claims : JwtClaims
  key : String
  deriving DecidableEq, Repr

/-- `jose.jwt.decode(token, key, algorithms=[HS256], options=...)`: succeeds
iff the signature verifies under `key` (modelled as key equality) and the exp
claim has not passed (jose raises ExpiredSignatureError exactly when
`exp < now`, with zero leeway). No issuer or audience check is requested by
the callers in this code base. -/
def jwtDecode (token : Jwt) (key : String) (now : Nat) : Option JwtClaims :=
  if token.key = key ∧ now ≤ token.claims.exp then some token.claims else none

/-- `create_token` (app/core/security.py lines 59-88): builds the claim set
from `data = {"sub": sub}`, the expiry delta (always passed explicitly by the
two wrappers below) and the settings, and signs with `settings.JWT_SECRET_KEY`
regardless of `token_type`. -/
def create_token (s : Settings) (now : Nat) (sub : String) (token_type : String)
    (expires_delta : Nat) : Jwt :=
  { claims :=
      { sub := some sub
        scopes := []
        type := token_type
        exp := now + expires_delta
        iat := now
        iss := s.JWT_ISSUER }
    key := s.JWT_SECRET_KEY }

/-- `create_access_token` (app/core/security.py lines 90-95):
`expires_delta = timedelta(minutes=settings.ACCESS_TOKEN_EXPIRE_MINUTES)`. -/
def create_access_token (s : Settings) (now : Nat) (sub : String) : Jwt :=
  create_token s now sub "access" (60 * s.ACCESS_TOKEN_EXPIRE_MINUTES)

/-- `create_refresh_token` (app/core/security.py lines 97-102):
`expires_delta = timedelta(days=settings.REFRESH_TOKEN_EXPIRE_DAYS)`. -/
def create_refresh_token (s : Settings) (now : Nat) (sub : String) : Jwt :=
  create_token s now sub "refresh" (86400 * s.REFRESH_TOKEN_EXPIRE_DAYS)

/-- `HTTPException(status_code=..., detail=...)` as observed by a client. -/
structure HTTPError where
  status_code : Nat
  detail : String
  deriving DecidableEq, Repr

/-- `verify_token` (app/core/security.py lines 104-114): decode under
`settings.JWT_SECRET_KEY`; any JWTError becomes
`HTTPException(400, "Invalid token")`. No type check happens here. -/
def verify_token (s : Settings) (now : Nat) (token : Jwt) :
    Except HTTPError JwtClaims :=
  match jwtDecode token s.JWT_SECRET_KEY now with
  | some payload => .ok payload
  | none => .error ⟨400, "Invalid token"⟩

/-- The pydantic model `TokenData` of app/schemas/token.py: fields `sub`,
`type`, `exp`, `iat`, `iss` are required, `scopes` defaults to `[]`, `jti` is
optional (omitted here, never read). -/
structure TokenData where
  sub : String
  scopes : List String
  type : String
  exp : Nat
  iat : Nat
  iss : String
  deriving DecidableEq, Repr

/-- Pydantic construction of `TokenData` from keyword arguments: an argument
that was not passed is `none`; validation fails (ValidationError) when any
required field is left unset; unknown keyword arguments (such as the `user_id`
that `get_current_user` passes) are ignored under the default
`extra = "ignore"` configuration and do not appear here. -/
def TokenData.validate (sub : Option String) (scopes : Option (List String))
    (type : Option String) (exp : Option Nat) (iat : Option Nat)
    (iss : Option String) : Option TokenData :=
  match sub, type, exp, iat, iss with
  | some a, some b, some c, some d, some e => some ⟨a, scopes.getD [], b, c, d, e⟩
  | _, _, _, _, _ => none

/-- The dictionary `get_current_user` returns on success. -/
structure AuthedUser where
  user_id : String
  scopes : List String
  deriving DecidableEq, Repr

/-- `get_current_user` (app/core/security.py lines 116-167), the access-token
verification path, with the callers `SecurityScopes` passed as
`security_scopes : List String`. Faithful branch structure:
* a failed decode (bad signature or expired) raises JWTError, caught and
  mapped to the 401 credentials exception;
* a missing "sub" claim raises the 401 credentials exception;
* `token_type != "access"` raises `HTTPException(401, "Invalid token type")`,
  which is NOT caught by the `except (JWTError, ValidationError)` clause and
  propagates as is;
* the call `TokenData(scopes=token_scopes, user_id=user_id)` passes no value
  for the required fields `sub`, `type`, `exp`, `iat`, `iss` of the TokenData
  model, so pydantic validation fails and the except clause maps it to the 401
  credentials exception — the success branch of the source is unreachable;
* were construction to succeed, the scope loop would raise 403 for a missing
  scope and the final `return` would read the nonexistent attribute
  `token_data.user_id`, an AttributeError, modelled as a 500. -/
def get_current_user (s : Settings) (now : Nat) (security_scopes : List String)
    (token : Jwt) : Except HTTPError AuthedUser :=
  match jwtDecode token s.JWT_SECRET_KEY now with
  | none => .error ⟨401, "Could not validate credentials"⟩
  | some payload =>
    match payload.sub with
    | none => .error ⟨401, "Could not validate credentials"⟩
    | some _ =>
      if payload.type ≠ "access" then .error ⟨401, "Invalid token type"⟩
      else
        match TokenData.validate none (some payload.scopes) none none none none with
        | none => .error ⟨401, "Could not validate credentials"⟩
        | some token_data =>
          if security_scopes.any (fun sc => ¬ token_data.scopes.contains sc) then
            .error ⟨403, "Not enough permissions"⟩
          else
            .error ⟨500, "AttributeError: TokenData has no field user_id"⟩

/-! ## Persisted state (app/models) -/

/-- A row of the `users` table (app/models/user.py). Columns not read or
written by the token lifecycle (first and last name, role, updated_at) are
omitted. `created_at` carries `server_default=func.now()`, so it is always
populated. -/
structure UserRow where
  id : Nat
  email : String
  hashed_password : String
  is_verified : Bool
  created_at : Nat
  deriving DecidableEq, Repr

/-- A row of the `refresh_tokens` table (app/models/refresh_token.py). The
`created_at` column is declared `DateTime, nullable=False` with NO default of
any kind (no `default=`, no `server_default=`), and no code path ever assigns
it, so it is modelled as `Option Nat`: `none` means the attribute was never
set (NULL at INSERT time). The token column stores the encoded JWT string,
here the `Jwt` value. -/
structure RefreshTokenRow where
  id : Nat
  user_id : Nat
  token : Jwt
  created_at : Option Nat
  expires_at : Nat
  revoked : Bool
  deriving DecidableEq, Repr

/-- A row of the `verification_tokens` table (app/models/verification_token.py):
columns id, user_id, token, token_type, expires_at, is_used, revoked. The
verify handlers additionally assign a `revoked_at` attribute that is not a
declared column (a plain Python attribute, not persisted); it is kept here as
`Option Nat` so the mutation made by the handlers is visible. -/
structure VerificationTokenRow where
  id : Nat
  user_id : Nat
  token : String
  token_type : String
  expires_at : Nat
  is_used : Bool
  revoked : Bool
  revoked_at : Option Nat
  deriving DecidableEq, Repr

/-- The three persisted tables. -/
structure DB where
  users : List UserRow
  refresh_tokens : List RefreshTokenRow
  verification_tokens : List VerificationTokenRow
  deriving DecidableEq, Repr

/-! ## AuthService and the /auth routes -/

/-- The where-clauses of the verification-token lookup shared by
`AuthService.verify_email` (app/services/auth.py lines 97-105) and the
`/auth/verify` route (app/api/v1/auth.py lines 135-141): token value equality,
`token_type == "email_verification"`, `revoked == False`,
`expires_at > now`. -/
def verificationTokenMatches (now : Nat) (tokenValue : String)
    (v : VerificationTokenRow) : Bool :=
  v.token == tokenValue && v.token_type == "email_verification" &&
    !v.revoked && decide (now < v.expires_at)

/-- The where-clauses of the refresh-token lookup shared by
`AuthService.refresh_access_token` (app/services/auth.py lines 122-129) and
the `/auth/refresh` route (app/api/v1/auth.py lines 113-118): token value
equality, `revoked == False`, `expires_at > now`. -/
def refreshTokenMatches (now : Nat) (tokenValue : Jwt)
    (t : RefreshTokenRow) : Bool :=
  t.token == tokenValue && !t.revoked && decide (now < t.expires_at)

/-- The successful-verification mutation shared by service and route: the
fetched user object gets `is_verified = True`, the fetched token object gets
`revoked = True` and `revoked_at = now`; both written in one commit. The ORM
mutates the fetched rows, identified by primary key. -/
def applyVerification (db : DB) (now : Nat) (v : VerificationTokenRow) : DB :=
  { db with
    users := db.users.map
      (fun u => if u.id == v.user_id then { u with is_verified := true } else u)
    verification_tokens := db.verification_tokens.map
      (fun w => if w.id == v.id then
         { w with revoked := true, revoked_at := some now } else w) }

/-- The `/auth/verify` route (app/api/v1/auth.py lines 132-156, verify_email):
look up a matching verification token (400 "Invalid or expired verification
token" if none), then the owning user by primary key (404 "User not found" if
absent — raised before any mutation), then apply the verification mutation and
return 200. -/
def verify_email_route (db : DB) (now : Nat) (tokenValue : String) :
    Except HTTPError String × DB :=
  match db.verification_tokens.find? (verificationTokenMatches now tokenValue) with
  | none => (.error ⟨400, "Invalid or expired verification token"⟩, db)
  | some v =>
    match db.users.find? (fun u => u.id == v.user_id) with
    | none => (.error ⟨404, "User not found"⟩, db)
    | some _ => (.ok "Email verified successfully", applyVerification db now v)

/-- `AuthService.verify_email` (app/services/auth.py lines 96-119): same
lookups and mutation as the route, but the two failure cases both return
`False` with no state change, and success returns `True`. -/
def AuthService_verify_email (db : DB) (now : Nat) (tokenValue : String) :
    Bool × DB :=
  match db.verification_tokens.find? (verificationTokenMatches now tokenValue) with
  | none => (false, db)
  | some v =>
    match db.users.find? (fun u => u.id == v.user_id) with
    | none => (false, db)
    | some _ => (true, applyVerification db now v)

/-- The token pair a successful login or refresh returns (schema Token of
app/schemas/auth.py). -/
structure TokenResponse where
  access_token : Jwt
  refresh_token : Jwt
  token_type : String
  deriving DecidableEq, Repr

/-- The `/auth/login` route (app/api/v1/auth.py lines 72-100, login):
* `vp` is the passlib `verify_password` oracle (bcrypt digests involve a
  random salt, so the hash relation is abstract);
* user lookup by email; absent user and password mismatch raise the one
  identical `HTTPException(400, "Incorrect email or password")`;
* an unverified user raises `HTTPException(400, "Email not verified")`;
* on success: issue the access and refresh JWTs for `sub = str(user.id)`, add
  a RefreshToken row — `user_id`, `token`, and
  `expires_at = now + timedelta(days=REFRESH_TOKEN_EXPIRE_DAYS)` are the only
  columns assigned; `created_at` is never assigned; `revoked` takes its column
  default False; `newRowId` is the fresh primary key the database generates —
  and return both tokens. -/
def login_route (vp : String → String → Bool) (s : Settings) (db : DB)
    (now : Nat) (newRowId : Nat) (email password : String) :
    Except HTTPError TokenResponse × DB :=
  match db.users.find? (fun u => u.email == email) with
  | none => (.error ⟨400, "Incorrect email or password"⟩, db)
  | some user =>
    if ¬ vp password user.hashed_password then
      (.error ⟨400, "Incorrect email or password"⟩, db)
    else if ¬ user.is_verified then
      (.error ⟨400, "Email not verified"⟩, db)
    else
      let refresh := create_refresh_token s now (toString user.id)
      let row : RefreshTokenRow :=
        { id := newRowId
          user_id := user.id
          token := refresh
          created_at := none
          expires_at := now + 86400 * s.REFRESH_TOKEN_EXPIRE_DAYS
          revoked := false }
      (.ok { access_token := create_access_token s now (toString user.id)
             refresh_token := refresh
             token_type := "bearer" },
       { db with refresh_tokens := db.refresh_tokens ++ [row] })

/-- `AuthService.create_tokens` (app/services/auth.py lines 77-94): the
token-issuing tail of the login flow, factored as a service method — issues
both JWTs for the given user and persists the refresh-token row, again
assigning only `user_id`, `token` and `expires_at`. -/
def AuthService_create_tokens (s : Settings) (db : DB) (now : Nat)
    (newRowId : Nat) (user : UserRow) : TokenResponse × DB :=
  let refresh := create_refresh_token s now (toString user.id)
  let row : RefreshTokenRow :=
    { id := newRowId
      user_id := user.id
      token := refresh
      created_at := none
      expires_at := now + 86400 * s.REFRESH_TOKEN_EXPIRE_DAYS
      revoked := false }
  ({ access_token := create_access_token s now (toString user.id)
     refresh_token := refresh
     token_type := "bearer" },
   { db with refresh_tokens := db.refresh_tokens ++ [row] })

/-- The `/auth/refresh` route (app/api/v1/auth.py lines 103-129,
refresh_token). The try block calls `verify_token` and then checks the type
claim; both the `HTTPException(400, "Invalid token")` raised inside
`verify_token` on a JWTError and the `HTTPException(400, "Invalid token type")`
raised by the type check are caught by the blanket `except Exception` and
re-raised as `HTTPException(400, "Invalid refresh token")`. Then the store
lookup; no row matching value + not revoked + not expired raises
`HTTPException(400, "Invalid or expired refresh token")`. On success a fresh
access token is minted for the owner of the stored row; the response carries the
presented refresh token back unchanged, and no store state is written. -/
def refresh_route (s : Settings) (db : DB) (now : Nat) (tokenValue : Jwt) :
    Except HTTPError TokenResponse × DB :=
  match verify_token s now tokenValue with
  | .error _ => (.error ⟨400, "Invalid refresh token"⟩, db)
  | .ok payload =>
    if payload.type ≠ "refresh" then (.error ⟨400, "Invalid refresh token"⟩, db)
    else
      match db.refresh_tokens.find? (refreshTokenMatches now tokenValue) with
      | none => (.error ⟨400, "Invalid or expired refresh token"⟩, db)
      | some row =>
        (.ok { access_token := create_access_token s now (toString row.user_id)
               refresh_token := tokenValue
               token_type := "bearer" }, db)

/-- `AuthService.refresh_access_token` (app/services/auth.py lines 121-134):
the store-lookup half alone — returns the new access token, or None when no
matching non-revoked, non-expired row exists. Reads only. -/
def AuthService_refresh_access_token (s : Settings) (db : DB) (now : Nat)
    (tokenValue : Jwt) : Option Jwt :=
  match db.refresh_tokens.find? (refreshTokenMatches now tokenValue) with
  | none => none
  | some row => some (create_access_token s now (toString row.user_id))

/-! ## Retention tasks (app/tasks/cleanup.py) -/

/-- Per-kind counts returned by `cleanup_expired_tokens`. -/
structure CleanupTokensResult where
  deleted_refresh_tokens : Nat
  deleted_verification_tokens : Nat
  deriving DecidableEq, Repr

/-- The `cleanup.expired_tokens` task body (app/tasks/cleanup.py lines 74-113):
select every RefreshToken row and every VerificationToken row with
`expires_at < now`, count them per kind, delete each selected row, commit once,
and return the counts. The users table is untouched. Celery retry wiring on
exceptions is scheduler plumbing outside this sequential model. -/
def cleanup_expired_tokens (db : DB) (now : Nat) : CleanupTokensResult × DB :=
  let expiredRefresh := db.refresh_tokens.filter (fun t => decide (t.expires_at < now))
  let expiredVerification :=
    db.verification_tokens.filter (fun t => decide (t.expires_at < now))
  ({ deleted_refresh_tokens := expiredRefresh.length
     deleted_verification_tokens := expiredVerification.length },
   { db with
     refresh_tokens := db.refresh_tokens.filter (fun t => !decide (t.expires_at < now))
     verification_tokens :=
       db.verification_tokens.filter (fun t => !decide (t.expires_at < now)) })

/-- The selection condition of `cleanup.delete_unverified_users`
(app/tasks/cleanup.py lines 36-46): `is_verified == False AND
created_at < cutoff_time`. -/
def staleUnverified (cutoff : Nat) (u : UserRow) : Bool :=
  !u.is_verified && decide (u.created_at < cutoff)

/-- If some element of `l` falsifies `p`, filtering by `p` strictly shrinks. -/
theorem length_filter_lt_of_mem_not {α : Type} {p : α → Bool} {l : List α}
    {a : α} (ha : a ∈ l) (hpa : ¬ p a = true) :
    (l.filter p).length < l.length :=
  List.length_filter_lt_length_iff_exists.mpr ⟨a, ha, hpa⟩

set_option linter.unusedVariables false in
/-- The while-loop of `cleanup.delete_unverified_users` (app/tasks/cleanup.py
lines 34-56): each iteration selects the first `batch_size = 100` users
matching the stale-unverified condition (`.limit(batch_size)`, with
skip-locked row locks — no concurrent locker in this sequential model), stops
when the batch is empty, otherwise deletes every user of the batch, commits,
and repeats with the deleted counter advanced. Termination: a non-empty batch
deletes at least its first element, so the user list strictly shrinks. -/
def delete_unverified_users_loop (cutoff : Nat) (users : List UserRow)
    (deleted : Nat) : Nat × List UserRow :=
  match hb : (users.filter (staleUnverified cutoff)).take 100 with
  | [] => (deleted, users)
  | b :: bs =>
    delete_unverified_users_loop cutoff
      (users.filter (fun u => decide (u ∉ b :: bs)))
      (deleted + (b :: bs).length)
termination_by users.length
decreasing_by
  have hbmem : b ∈ users.filter (staleUnverified cutoff) :=
    List.take_subset 100 _ (hb ▸ List.mem_cons_self b bs)
  exact length_filter_lt_of_mem_not (List.mem_filter.mp hbmem).1 (by simp)

/-- The `cleanup.delete_unverified_users` task body (app/tasks/cleanup.py
lines 24-63): `cutoff_time = now - timedelta(days=days_old)`, run the batch
loop starting from a zero counter, and return the total deleted count. -/
def delete_unverified_users (db : DB) (now : Nat) (days_old : Nat) : Nat × DB :=
  let r := delete_unverified_users_loop (now - 86400 * days_old) db.users 0
  (r.1, { db with users := r.2 })

/-! ## Sample fixtures used by the witnesses -/

/-- Sample configuration with deliberately distinct access and refresh keys. -/
def sampleSettings : Settings :=
  { JWT_SECRET_KEY := "k1"
    JWT_REFRESH_SECRET_KEY := "k2"
    JWT_ISSUER := "Coffee Shop API"
    ACCESS_TOKEN_EXPIRE_MINUTES := 30
    REFRESH_TOKEN_EXPIRE_DAYS := 7 }

/-- Sample password-verification oracle: digest equals the plaintext. -/
def samplePasswordCheck : String → String → Bool := fun plain digest => plain == digest

/-- A verified sample user. -/
def sampleVerifiedUser : UserRow :=
  { id := 2, email := "b@x.com", hashed_password := "pw", is_verified := true
    created_at := 0 }

/-! ## C4 -/

/-- C4, counterexample: with distinct configured keys ("k1" for
JWT_SECRET_KEY, "k2" for JWT_REFRESH_SECRET_KEY), the access token and the
refresh token issued for the same user are signed under the SAME key, and the
refresh token verifies under the key the access-token path uses — refuting the
claim that the two token kinds are signed under distinct keys. -/
theorem C4_counterexample_shared_signing_key :
    sampleSettings.JWT_SECRET_KEY ≠ sampleSettings.JWT_REFRESH_SECRET_KEY ∧
    (create_access_token sampleSettings 0 "1").key =
      (create_refresh_token sampleSettings 0 "1").key ∧
    (jwtDecode (create_refresh_token sampleSettings 0 "1")
      sampleSettings.JWT_SECRET_KEY 0).isSome = true :=
  ⟨by decide, rfl, by decide⟩

/-- C4, amended: `create_token` signs every token with
`settings.JWT_SECRET_KEY` whatever the token type, so for every userId the
access and refresh tokens are signed under one and the same key
(`JWT_REFRESH_SECRET_KEY` is configured but never used), and a freshly issued
refresh token always verifies under the key the access-token verifier uses. -/
theorem C4_amended_single_signing_key (s : Settings) (now : Nat) (uid : String) :
    (create_access_token s now uid).key = s.JWT_SECRET_KEY ∧
    (create_refresh_token s now uid).key = s.JWT_SECRET_KEY ∧
    (create_refresh_token s now uid).key = (create_access_token s now uid).key ∧
    (jwtDecode (create_refresh_token s now uid) s.JWT_SECRET_KEY now).isSome = true := by
  refine ⟨rfl, rfl, rfl, ?_⟩
  simp [jwtDecode, create_refresh_token, create_token]

/-! ## C9 -/

/-- C9: the RefreshToken row a successful login appends to the store never has
its `created_at` (issued-at) column assigned — the source sets only `user_id`,
`token` and `expires_at`, and the column has no default — so the claimed
creation-time relation `expires_at > created_at` is not established by the
code; the insert violates the declared NOT NULL constraint. The second
conjunct shows the same for the `AuthService.create_tokens` path. -/
theorem C9_refresh_token_created_at_unassigned
    (vp : String → String → Bool) (s : Settings) (db : DB) (now nid : Nat)
    (email pw : String) (tok : TokenResponse) (db' : DB)
    (hok : login_route vp s db now nid email pw = (.ok tok, db')) :
    (∃ row : RefreshTokenRow,
      db'.refresh_tokens = db.refresh_tokens ++ [row] ∧
      row.created_at = none ∧
      row.token = tok.refresh_token ∧
      row.expires_at = now + 86400 * s.REFRESH_TOKEN_EXPIRE_DAYS) ∧
    (∀ (u : UserRow) (nid' : Nat),
      (AuthService_create_tokens s db now nid' u).2.refresh_tokens =
        db.refresh_tokens ++
          [{ id := nid', user_id := u.id
             token := create_refresh_token s now (toString u.id)
             created_at := none
             expires_at := now + 86400 * s.REFRESH_TOKEN_EXPIRE_DAYS
             revoked := false }]) := by
  constructor
  · unfold login_route at hok
    cases hfu : db.users.find? (fun u => u.email == email) with
    | none => rw [hfu] at hok; exact absurd hok (by simp)
    | some user =>
      rw [hfu] at hok
      by_cases hvp : vp pw user.hashed_password
      case neg => exact absurd hok (by simp [hvp])
      by_cases hver : user.is_verified
      case neg => exact absurd hok (by simp [hvp, hver])
      simp only [hvp, hver, not_true_eq_false, if_false, Prod.mk.injEq,
        Except.ok.injEq] at hok
      obtain ⟨htok, hdb⟩ := hok
      refine ⟨{ id := nid, user_id := user.id
                token := create_refresh_token s now (toString user.id)
                created_at := none
                expires_at := now + 86400 * s.REFRESH_TOKEN_EXPIRE_DAYS
                revoked := false }, ?_, rfl, ?_, rfl⟩
      · rw [← hdb]
      · rw [← htok]
  · intro u nid'
    rfl

/-- C9, witness: a concrete successful login (verified user, matching
password) exhibiting the appended row with `created_at = none`. -/
theorem C9_witness :
    ∃ row : RefreshTokenRow,
      (login_route samplePasswordCheck sampleSettings
          { users := [sampleVerifiedUser], refresh_tokens := []
            verification_tokens := [] } 0 5 "b@x.com" "pw").2.refresh_tokens =
        [] ++ [row] ∧
      row.created_at = none ∧
      row.token = create_refresh_token sampleSettings 0 "2" ∧
      row.expires_at = 0 + 86400 * sampleSettings.REFRESH_TOKEN_EXPIRE_DAYS := by
  obtain ⟨row, h1, h2, h3, h4⟩ :=
    (C9_refresh_token_created_at_unassigned samplePasswordCheck sampleSettings
      { users := [sampleVerifiedUser], refresh_tokens := [], verification_tokens := [] }
      0 5 "b@x.com" "pw"
      { access_token := create_access_token sampleSettings 0 "2"
        refresh_token := create_refresh_token sampleSettings 0 "2"
        token_type := "bearer" }
      { users := [sampleVerifiedUser]
        refresh_tokens :=
          [{ id := 5, user_id := 2
             token := create_refresh_token sampleSettings 0 "2"
             created_at := none
             expires_at := 0 + 86400 * sampleSettings.REFRESH_TOKEN_EXPIRE_DAYS
             revoked := false }]
        verification_tokens := [] } rfl).1
  exact ⟨row, h1, h2, h3, h4⟩

/-! ## C10 -/

/-- C10: when a verification-token row matches the presented value (right
kind, unrevoked, unexpired) but the owning user row does not exist, the
`/auth/verify` route fails with the distinct 404 "User not found" — not the
uniform 400 token error — leaving the store untouched (token still
unrevoked), and `AuthService.verify_email` likewise returns False with no
mutation. -/
theorem C10_verify_email_missing_user (db : DB) (now : Nat) (tokenValue : String)
    (v : VerificationTokenRow)
    (hfind : db.verification_tokens.find? (verificationTokenMatches now tokenValue)
      = some v)
    (huser : db.users.find? (fun u => u.id == v.user_id) = none) :
    verify_email_route db now tokenValue = (.error ⟨404, "User not found"⟩, db) ∧
    AuthService_verify_email db now tokenValue = (false, db) := by
  unfold verify_email_route AuthService_verify_email
  simp [hfind, huser]

/-- C10, witness: one matching verification token, empty users table. -/
theorem C10_witness :
    verify_email_route
        { users := [], refresh_tokens := []
          verification_tokens :=
            [{ id := 1, user_id := 1, token := "t"
               token_type := "email_verification", expires_at := 10
               is_used := false, revoked := false, revoked_at := none }] }
        0 "t" =
      (.error ⟨404, "User not found"⟩,
       { users := [], refresh_tokens := []
         verification_tokens :=
           [{ id := 1, user_id := 1, token := "t"
              token_type := "email_verification", expires_at := 10
              is_used := false, revoked := false, revoked_at := none }] }) :=
  (C10_verify_email_missing_user
    { users := [], refresh_tokens := []
      verification_tokens :=
        [{ id := 1, user_id := 1, token := "t"
           token_type := "email_verification", expires_at := 10
           is_used := false, revoked := false, revoked_at := none }] }
    0 "t"
    { id := 1, user_id := 1, token := "t", token_type := "email_verification"
      expires_at := 10, is_used := false, revoked := false, revoked_at := none }
    rfl rfl).1

/-! ## C6 -/

/-- C6: the login failure for an unregistered email and the failure for a
registered email with a wrong password are the very same observable outcome —
one identical `HTTPException(400, "Incorrect email or password")` with the
store untouched — so the result reveals nothing about whether the email is
registered; and "Email not verified" arises exactly when the user exists, the
password verifies, and is_verified is false. -/
theorem C6_login_uniform_invalid_credentials
    (vp : String → String → Bool) (s : Settings) (db : DB) (now nid : Nat)
    (email₁ pw₁ email₂ pw₂ : String) (u : UserRow)
    (h₁ : db.users.find? (fun x => x.email == email₁) = none)
    (h₂ : db.users.find? (fun x => x.email == email₂) = some u)
    (h₂p : vp pw₂ u.hashed_password = false) :
    login_route vp s db now nid email₁ pw₁ =
      (.error ⟨400, "Incorrect email or password"⟩, db) ∧
    login_route vp s db now nid email₂ pw₂ =
      (.error ⟨400, "Incorrect email or password"⟩, db) ∧
    (∀ (email pw : String) (db' : DB),
      login_route vp s db now nid email pw = (.error ⟨400, "Email not verified"⟩, db') →
      ∃ u', db.users.find? (fun x => x.email == email) = some u' ∧
        vp pw u'.hashed_password = true ∧ u'.is_verified = false ∧ db' = db) := by
  refine ⟨?_, ?_, ?_⟩
  · unfold login_route
    rw [h₁]
  · unfold login_route
    simp [h₂, h₂p]
  · intro email pw db' h
    unfold login_route at h
    cases hfu : db.users.find? (fun x => x.email == email) with
    | none => rw [hfu] at h; exact absurd h (by simp)
    | some u' =>
      rw [hfu] at h
      by_cases hvp : vp pw u'.hashed_password
      case neg => exact absurd h (by simp [hvp])
      by_cases hver : u'.is_verified
      case pos => exact absurd h (by simp [hvp, hver])
      have hver' : u'.is_verified = false := by simpa using hver
      simp [hvp, hver'] at h
      exact ⟨u', rfl, hvp, hver', h.symm⟩

/-- C6, witness: a store with one registered user; an unknown email and a
wrong password for the known email produce the identical error outcome. -/
theorem C6_witness :
    login_route samplePasswordCheck sampleSettings
        { users := [sampleVerifiedUser], refresh_tokens := [], verification_tokens := [] }
        0 5 "nobody@x.com" "whatever" =
      (.error ⟨400, "Incorrect email or password"⟩,
       { users := [sampleVerifiedUser], refresh_tokens := [], verification_tokens := [] }) ∧
    login_route samplePasswordCheck sampleSettings
        { users := [sampleVerifiedUser], refresh_tokens := [], verification_tokens := [] }
        0 5 "b@x.com" "wrong" =
      (.error ⟨400, "Incorrect email or password"⟩,
       { users := [sampleVerifiedUser], refresh_tokens := [], verification_tokens := [] }) := by
  have h := C6_login_uniform_invalid_credentials samplePasswordCheck sampleSettings
    { users := [sampleVerifiedUser], refresh_tokens := [], verification_tokens := [] }
    0 5 "nobody@x.com" "whatever" "b@x.com" "wrong" sampleVerifiedUser rfl rfl rfl
  exact ⟨h.1, h.2.1⟩

/-! ## C2 and C5: the refresh operation -/

/-- Success characterization of the `/auth/refresh` route: an access token is
issued exactly when the cryptographic claims verify (signature under
JWT_SECRET_KEY, unexpired, type claim "refresh") AND a stored row exactly
matching the value exists that is non-revoked and non-expired. -/
theorem refresh_route_ok_iff (s : Settings) (db : DB) (now : Nat) (tokenValue : Jwt) :
    (∃ tok, (refresh_route s db now tokenValue).1 = .ok tok) ↔
      ((tokenValue.key = s.JWT_SECRET_KEY ∧ now ≤ tokenValue.claims.exp) ∧
       tokenValue.claims.type = "refresh" ∧
       ∃ row ∈ db.refresh_tokens,
         row.token = tokenValue ∧ row.revoked = false ∧ now < row.expires_at) := by
  unfold refresh_route verify_token jwtDecode
  by_cases hc : tokenValue.key = s.JWT_SECRET_KEY ∧ now ≤ tokenValue.claims.exp
  case neg => simp [hc]
  rw [if_pos hc]
  by_cases ht : tokenValue.claims.type = "refresh"
  case neg => simp [ht, hc]
  simp only [ht, ne_eq, not_true_eq_false, if_false, hc, true_and]
  cases hf : db.refresh_tokens.find? (refreshTokenMatches now tokenValue) with
  | none =>
    simp only [hf]
    rw [List.find?_eq_none] at hf
    simp only [refreshTokenMatches, Bool.and_eq_true, beq_iff_eq,
      Bool.not_eq_true', decide_eq_true_eq, not_and] at hf
    constructor
    · rintro ⟨tok, htok⟩; exact absurd htok (by simp)
    · rintro ⟨row, hmem, h1, h2, h3⟩
      exact absurd h3 (hf row hmem ⟨h1, h2⟩)
  | some row =>
    simp only [hf]
    have hmem := List.mem_of_find?_eq_some hf
    have hrow := List.find?_some hf
    simp only [refreshTokenMatches, Bool.and_eq_true, beq_iff_eq,
      Bool.not_eq_true', decide_eq_true_eq] at hrow
    constructor
    · intro _
      exact ⟨row, hmem, hrow.1.1, hrow.1.2, hrow.2⟩
    · intro _
      exact ⟨_, rfl⟩

/-- The `/auth/refresh` route never writes the store, on any path. -/
theorem refresh_route_preserves_db (s : Settings) (db : DB) (now : Nat)
    (tokenValue : Jwt) : (refresh_route s db now tokenValue).2 = db := by
  unfold refresh_route verify_token
  cases jwtDecode tokenValue s.JWT_SECRET_KEY now with
  | none => rfl
  | some payload =>
    by_cases ht : payload.type = "refresh"
    case neg => simp [ht]
    simp only [ht, ne_eq, not_true_eq_false, if_false]
    cases db.refresh_tokens.find? (refreshTokenMatches now tokenValue) <;> rfl

/-- C2: the refresh operation issues an access token iff BOTH independent
checks pass — the presented JWT verifies cryptographically (signature under
the configured key, unexpired, type claim "refresh") and a stored RefreshToken
row exactly matching the value exists, non-revoked and non-expired; when
either check fails the result is a 400 invalid-or-expired-token error (the
crypto branch re-raises as "Invalid refresh token", the store branch as
"Invalid or expired refresh token") and no access token is issued, with the
store unchanged. -/
theorem C2_refresh_requires_signature_and_store (s : Settings) (db : DB)
    (now : Nat) (tokenValue : Jwt) :
    ((∃ tok, (refresh_route s db now tokenValue).1 = .ok tok) ↔
      ((tokenValue.key = s.JWT_SECRET_KEY ∧ now ≤ tokenValue.claims.exp) ∧
       tokenValue.claims.type = "refresh" ∧
       ∃ row ∈ db.refresh_tokens,
         row.token = tokenValue ∧ row.revoked = false ∧ now < row.expires_at)) ∧
    (∀ e, (refresh_route s db now tokenValue).1 = .error e →
      e.status_code = 400 ∧
      (e.detail = "Invalid refresh token" ∨
       e.detail = "Invalid or expired refresh token")) ∧
    (refresh_route s db now tokenValue).2 = db := by
  refine ⟨refresh_route_ok_iff s db now tokenValue, ?_,
    refresh_route_preserves_db s db now tokenValue⟩
  intro e he
  unfold refresh_route verify_token at he
  split at he
  · obtain rfl := Except.error.inj he
    exact ⟨rfl, Or.inl rfl⟩
  · split at he
    · obtain rfl := Except.error.inj he
      exact ⟨rfl, Or.inl rfl⟩
    · split at he
      · obtain rfl := Except.error.inj he
        exact ⟨rfl, Or.inr rfl⟩
      · exact absurd he (by simp)

/-- C2, witness: a concretely valid refresh (both checks pass) issues an
access token, and a crypto-valid value absent from the store is refused. -/
theorem C2_witness :
    (∃ tok, (refresh_route sampleSettings
        { users := [sampleVerifiedUser]
          refresh_tokens :=
            [{ id := 5, user_id := 2
               token := create_refresh_token sampleSettings 0 "2"
               created_at := none, expires_at := 604800, revoked := false }]
          verification_tokens := [] }
        3 (create_refresh_token sampleSettings 0 "2")).1 = .ok tok) ∧
    ¬ (∃ tok, (refresh_route sampleSettings
        { users := [sampleVerifiedUser], refresh_tokens := []
          verification_tokens := [] }
        3 (create_refresh_token sampleSettings 0 "2")).1 = .ok tok) := by
  constructor
  · exact (C2_refresh_requires_signature_and_store sampleSettings _ 3 _).1.mpr
      ⟨⟨rfl, by decide⟩, rfl,
        ⟨{ id := 5, user_id := 2
           token := create_refresh_token sampleSettings 0 "2"
           created_at := none, expires_at := 604800, revoked := false },
         by simp, rfl, rfl, by decide⟩⟩
  · intro hex
    have h := (C2_refresh_requires_signature_and_store sampleSettings
      { users := [sampleVerifiedUser], refresh_tokens := []
        verification_tokens := [] } 3
      (create_refresh_token sampleSettings 0 "2")).1.mp hex
    rcases h.2.2 with ⟨row, hmem, -⟩
    simp at hmem

/-- C5: a successful refresh changes no stored state at all — every
RefreshToken row, in particular the one matching the presented value, keeps
its token, revoked flag and expires_at — the response returns the presented
refresh token itself (no rotation), and the same token keeps working: at any
later instant at which its stored row is still unexpired and unrevoked and its
signature still unexpired, refreshing again succeeds. -/
theorem C5_refresh_not_rotated (s : Settings) (db : DB) (now : Nat)
    (tokenValue : Jwt) (tok : TokenResponse) (db' : DB)
    (hok : refresh_route s db now tokenValue = (.ok tok, db')) :
    db' = db ∧
    tok.refresh_token = tokenValue ∧
    (∀ now', (now' ≤ tokenValue.claims.exp) →
      (∃ row ∈ db.refresh_tokens,
        row.token = tokenValue ∧ row.revoked = false ∧ now' < row.expires_at) →
      ∃ tok', (refresh_route s db now' tokenValue).1 = .ok tok') := by
  have hdb : db' = db := by
    have := refresh_route_preserves_db s db now tokenValue
    rw [hok] at this
    exact this
  have hchecks := (refresh_route_ok_iff s db now tokenValue).mp
    ⟨tok, by rw [hok]⟩
  refine ⟨hdb, ?_, ?_⟩
  · unfold refresh_route verify_token at hok
    cases hd : jwtDecode tokenValue s.JWT_SECRET_KEY now with
    | none => rw [hd] at hok; exact absurd hok (by simp)
    | some payload =>
      rw [hd] at hok
      by_cases ht : payload.type = "refresh"
      case neg => exact absurd hok (by simp [ht])
      simp only [ht, ne_eq, not_true_eq_false, if_false] at hok
      cases hf : db.refresh_tokens.find? (refreshTokenMatches now tokenValue) with
      | none => rw [hf] at hok; exact absurd hok (by simp)
      | some row =>
        rw [hf] at hok
        simp only [Prod.mk.injEq, Except.ok.injEq] at hok
        rw [← hok.1]
  · intro now' hexp hrow
    exact (refresh_route_ok_iff s db now' tokenValue).mpr
      ⟨⟨hchecks.1.1, hexp⟩, hchecks.2.1, hrow⟩

/-- C5, witness: the concrete successful refresh of the C2 witness leaves the
store unchanged and returns the presented token back. -/
theorem C5_witness :
    (refresh_route sampleSettings
        { users := [sampleVerifiedUser]
          refresh_tokens :=
            [{ id := 5, user_id := 2
               token := create_refresh_token sampleSettings 0 "2"
               created_at := none, expires_at := 604800, revoked := false }]
          verification_tokens := [] }
        3 (create_refresh_token sampleSettings 0 "2")).2 =
      { users := [sampleVerifiedUser]
        refresh_tokens :=
          [{ id := 5, user_id := 2
             token := create_refresh_token sampleSettings 0 "2"
             created_at := none, expires_at := 604800, revoked := false }]
        verification_tokens := [] } ∧
    (refresh_route sampleSettings
        { users := [sampleVerifiedUser]
          refresh_tokens :=
            [{ id := 5, user_id := 2
               token := create_refresh_token sampleSettings 0 "2"
               created_at := none, expires_at := 604800, revoked := false }]
          verification_tokens := [] }
        3 (create_refresh_token sampleSettings 0 "2")).1 =
      .ok { access_token := create_access_token sampleSettings 3 "2"
            refresh_token := create_refresh_token sampleSettings 0 "2"
            token_type := "bearer" } := by
  have h := C5_refresh_not_rotated sampleSettings
    { users := [sampleVerifiedUser]
      refresh_tokens :=
        [{ id := 5, user_id := 2
           token := create_refresh_token sampleSettings 0 "2"
           created_at := none, expires_at := 604800, revoked := false }]
      verification_tokens := [] }
    3 (create_refresh_token sampleSettings 0 "2")
    { access_token := create_access_token sampleSettings 3 "2"
      refresh_token := create_refresh_token sampleSettings 0 "2"
      token_type := "bearer" }
    { users := [sampleVerifiedUser]
      refresh_tokens :=
        [{ id := 5, user_id := 2
           token := create_refresh_token sampleSettings 0 "2"
           created_at := none, expires_at := 604800, revoked := false }]
      verification_tokens := [] }
    rfl
  exact ⟨h.1, rfl⟩

/-! ## C3 -/

/-- C3: every token the access-token verification path accepts has type claim
"access" — here vacuously strong, because the path accepts no token at all
(the TokenData construction it performs always fails validation) — and, the
live content of the claim: presenting an issued refresh token with valid
signature and unexpired to that path fails with the 401 "Invalid token type"
type-mismatch error, and an issued refresh token never yields authenticated
access under any circumstances. -/
theorem C3_access_path_rejects_refresh_tokens (s : Settings) :
    (∀ (now : Nat) (scopes : List String) (tok : Jwt) (r : AuthedUser),
      get_current_user s now scopes tok = .ok r → tok.claims.type = "access") ∧
    (∀ (issuedAt now' : Nat) (scopes : List String) (sub : String),
      (∀ r, get_current_user s now' scopes (create_refresh_token s issuedAt sub) ≠ .ok r) ∧
      (now' ≤ issuedAt + 86400 * s.REFRESH_TOKEN_EXPIRE_DAYS →
        get_current_user s now' scopes (create_refresh_token s issuedAt sub) =
          .error ⟨401, "Invalid token type"⟩)) := by
  constructor
  · intro now scopes tok r h
    unfold get_current_user at h
    cases hd : jwtDecode tok s.JWT_SECRET_KEY now with
    | none => rw [hd] at h; exact absurd h (by simp)
    | some payload =>
      have hp : payload = tok.claims := by
        unfold jwtDecode at hd
        by_cases hc : tok.key = s.JWT_SECRET_KEY ∧ now ≤ tok.claims.exp
        · rw [if_pos hc] at hd; exact (Option.some.inj hd).symm
        · rw [if_neg hc] at hd; exact absurd hd (by simp)
      simp only [hd] at h
      cases hs : payload.sub with
      | none => simp only [hs] at h; exact absurd h (by simp)
      | some sub =>
        simp only [hs] at h
        by_cases ht : payload.type = "access"
        · rw [← hp]; exact ht
        · exact absurd h (by simp [ht, TokenData.validate])
  · intro issuedAt now' scopes sub
    constructor
    · intro r h
      by_cases hexp : now' ≤ issuedAt + 86400 * s.REFRESH_TOKEN_EXPIRE_DAYS
      · simp [get_current_user, create_refresh_token, create_token, jwtDecode,
          hexp] at h
      · simp [get_current_user, create_refresh_token, create_token, jwtDecode,
          hexp] at h
    · intro hexp
      simp [get_current_user, create_refresh_token, create_token, jwtDecode, hexp]

/-- C3, witness: a concrete issued refresh token, presented unexpired to the
access-token path, is rejected with 401 "Invalid token type". -/
theorem C3_witness :
    get_current_user sampleSettings 3 [] (create_refresh_token sampleSettings 0 "2") =
      .error ⟨401, "Invalid token type"⟩ :=
  ((C3_access_path_rejects_refresh_tokens sampleSettings).2 0 3 [] "2").2 (by decide)

/-! ## C1 -/

/-- C1: once `verify_email` has consumed a token value successfully, every
subsequent call with the same value fails with exactly the uniform
`HTTPException(400, "Invalid or expired verification token")` and no state
change, and that observable outcome is identical to the one for a token value
that was never issued at all. The hypothesis `hnd` is the store invariant
that verification-token values are unique (spec §3: opaque token string,
unique). -/
theorem C1_consumed_verification_token_uniform_failure
    (db : DB) (now : Nat) (tokenValue : String)
    (hnd : (db.verification_tokens.map VerificationTokenRow.token).Nodup)
    (msg : String) (db' : DB)
    (hok : verify_email_route db now tokenValue = (.ok msg, db')) :
    (∀ now', verify_email_route db' now' tokenValue =
      (.error ⟨400, "Invalid or expired verification token"⟩, db')) ∧
    (∀ (db₀ : DB) (now₀ : Nat) (t₀ : String),
      (∀ v ∈ db₀.verification_tokens, v.token ≠ t₀) →
      verify_email_route db₀ now₀ t₀ =
        (.error ⟨400, "Invalid or expired verification token"⟩, db₀)) := by
  have hnever : ∀ (db₀ : DB) (now₀ : Nat) (t₀ : String),
      (∀ v ∈ db₀.verification_tokens, v.token ≠ t₀) →
      verify_email_route db₀ now₀ t₀ =
        (.error ⟨400, "Invalid or expired verification token"⟩, db₀) := by
    intro db₀ now₀ t₀ h₀
    unfold verify_email_route
    have hn : db₀.verification_tokens.find? (verificationTokenMatches now₀ t₀) = none := by
      rw [List.find?_eq_none]
      intro w hw hmw
      simp only [verificationTokenMatches, Bool.and_eq_true, beq_iff_eq] at hmw
      exact h₀ w hw hmw.1.1.1
    rw [hn]
  refine ⟨?_, hnever⟩
  unfold verify_email_route at hok
  cases hfv : db.verification_tokens.find? (verificationTokenMatches now tokenValue) with
  | none => rw [hfv] at hok; exact absurd hok (by simp)
  | some v =>
    rw [hfv] at hok
    have hv : verificationTokenMatches now tokenValue v = true := List.find?_some hfv
    have hvmem : v ∈ db.verification_tokens := List.mem_of_find?_eq_some hfv
    have hvtok : v.token = tokenValue := by
      simp only [verificationTokenMatches, Bool.and_eq_true, beq_iff_eq] at hv
      exact hv.1.1.1
    cases hfu : db.users.find? (fun u => u.id == v.user_id) with
    | none => simp only [hfu] at hok; exact absurd hok (by simp)
    | some u =>
      simp only [hfu, Prod.mk.injEq, Except.ok.injEq] at hok
      have hdb' : db' = applyVerification db now v := hok.2.symm
      intro now'
      have hnone : db'.verification_tokens.find?
          (verificationTokenMatches now' tokenValue) = none := by
        rw [hdb']
        rw [List.find?_eq_none]
        intro w hw
        unfold applyVerification at hw
        simp only [List.mem_map] at hw
        obtain ⟨w₀, hw₀, rfl⟩ := hw
        by_cases hid : w₀.id == v.id
        · simp [hid, verificationTokenMatches]
        · simp only [hid, if_false, Bool.false_eq_true]
          intro hmw
          simp only [verificationTokenMatches, Bool.and_eq_true, beq_iff_eq] at hmw
          have hw₀v : w₀ = v :=
            List.inj_on_of_nodup_map hnd hw₀ hvmem (by rw [hmw.1.1.1, hvtok])
          rw [hw₀v] at hid
          exact absurd (by simp) hid
      unfold verify_email_route
      rw [hnone]

/-- Concrete store for the C1 witness: one verified-or-not user owning one
live verification token. -/
def sampleVerifyDB : DB :=
  { users := [{ id := 1, email := "a@x.com", hashed_password := "pw"
                is_verified := false, created_at := 0 }]
    refresh_tokens := []
    verification_tokens :=
      [{ id := 1, user_id := 1, token := "t", token_type := "email_verification"
         expires_at := 10, is_used := false, revoked := false, revoked_at := none }] }

/-- The store after the C1 witness consumes the token. -/
def sampleVerifyDB2 : DB :=
  { users := [{ id := 1, email := "a@x.com", hashed_password := "pw"
                is_verified := true, created_at := 0 }]
    refresh_tokens := []
    verification_tokens :=
      [{ id := 1, user_id := 1, token := "t", token_type := "email_verification"
         expires_at := 10, is_used := false, revoked := true, revoked_at := some 0 }] }

/-- C1, witness: consuming the token "t" succeeds once; the immediate retry
(same instant) and a later retry both fail with the uniform 400 error and no
state change. -/
theorem C1_witness :
    verify_email_route sampleVerifyDB 0 "t" =
      (.ok "Email verified successfully", sampleVerifyDB2) ∧
    verify_email_route sampleVerifyDB2 0 "t" =
      (.error ⟨400, "Invalid or expired verification token"⟩, sampleVerifyDB2) ∧
    verify_email_route sampleVerifyDB2 5 "t" =
      (.error ⟨400, "Invalid or expired verification token"⟩, sampleVerifyDB2) := by
  have h := C1_consumed_verification_token_uniform_failure sampleVerifyDB 0 "t"
    (by decide) "Email verified successfully" sampleVerifyDB2 rfl
  exact ⟨rfl, h.1 0, h.1 5⟩

/-! ## C7 -/

/-- C7: one run of the expired-token purge deletes exactly the RefreshToken
and VerificationToken rows with expires_at strictly before now — a row
survives iff it was there and is not expired, the users table is untouched —
and reports the per-kind counts of matching rows; in particular on a store
whose refresh-token table holds one expired and one live row it deletes only
the expired one and reports deleted_refresh_tokens = 1. -/
theorem C7_cleanup_expired_tokens_spec (db : DB) (now : Nat) :
    (∀ r : RefreshTokenRow,
      r ∈ (cleanup_expired_tokens db now).2.refresh_tokens ↔
        (r ∈ db.refresh_tokens ∧ ¬ r.expires_at < now)) ∧
    (∀ v : VerificationTokenRow,
      v ∈ (cleanup_expired_tokens db now).2.verification_tokens ↔
        (v ∈ db.verification_tokens ∧ ¬ v.expires_at < now)) ∧
    (cleanup_expired_tokens db now).2.users = db.users ∧
    (cleanup_expired_tokens db now).1.deleted_refresh_tokens =
      db.refresh_tokens.countP (fun t => decide (t.expires_at < now)) ∧
    (cleanup_expired_tokens db now).1.deleted_verification_tokens =
      db.verification_tokens.countP (fun t => decide (t.expires_at < now)) ∧
    (∀ a b : RefreshTokenRow, a.expires_at < now → ¬ b.expires_at < now →
      db.refresh_tokens = [a, b] →
      (cleanup_expired_tokens db now).1.deleted_refresh_tokens = 1 ∧
      (cleanup_expired_tokens db now).2.refresh_tokens = [b]) := by
  refine ⟨?_, ?_, rfl, ?_, ?_, ?_⟩
  · intro r
    simp [cleanup_expired_tokens, List.mem_filter]
  · intro v
    simp [cleanup_expired_tokens, List.mem_filter]
  · simp [cleanup_expired_tokens, List.countP_eq_length_filter]
  · simp [cleanup_expired_tokens, List.countP_eq_length_filter]
  · intro a b ha hb hdb
    constructor
    · simp [cleanup_expired_tokens, hdb, List.filter_cons, ha, hb]
    · simp [cleanup_expired_tokens, hdb, List.filter_cons, ha, hb]

/-- Expired and live sample refresh-token rows for the C7 witness. -/
def sampleExpiredRow : RefreshTokenRow :=
  { id := 1, user_id := 2, token := create_refresh_token sampleSettings 0 "2"
    created_at := none, expires_at := 3, revoked := false }

/-- The live counterpart of `sampleExpiredRow`. -/
def sampleLiveRow : RefreshTokenRow :=
  { id := 2, user_id := 2, token := create_refresh_token sampleSettings 1 "2"
    created_at := none, expires_at := 999, revoked := false }

/-- C7, witness: the spec scenario — one expired plus one live refresh token;
only the expired one is deleted and the count is 1. -/
theorem C7_witness :
    (cleanup_expired_tokens
      { users := [], refresh_tokens := [sampleExpiredRow, sampleLiveRow]
        verification_tokens := [] } 5).1.deleted_refresh_tokens = 1 ∧
    (cleanup_expired_tokens
      { users := [], refresh_tokens := [sampleExpiredRow, sampleLiveRow]
        verification_tokens := [] } 5).2.refresh_tokens = [sampleLiveRow] :=
  (C7_cleanup_expired_tokens_spec
    { users := [], refresh_tokens := [sampleExpiredRow, sampleLiveRow]
      verification_tokens := [] } 5).2.2.2.2.2
    sampleExpiredRow sampleLiveRow (by decide) (by decide) rfl

/-! ## C8 -/

/-- Filtering an append by non-membership in the left part keeps exactly the
right part, provided the two parts are disjoint. -/
theorem filter_not_mem_append {α : Type} [DecidableEq α] (xs ys : List α)
    (h : ∀ a ∈ ys, a ∉ xs) :
    (xs ++ ys).filter (fun x => decide (x ∉ xs)) = ys := by
  rw [List.filter_append]
  have h1 : xs.filter (fun x => decide (x ∉ xs)) = [] :=
    List.filter_eq_nil_iff.mpr (by intro a ha; simp [ha])
  have h2 : ys.filter (fun x => decide (x ∉ xs)) = ys :=
    List.filter_eq_self.mpr (by intro a ha; simpa using h a ha)
  rw [h1, h2, List.nil_append]

/-- On a duplicate-free list, removing the members of its first `n` elements
leaves exactly the remainder. -/
theorem filter_not_mem_take {α : Type} [DecidableEq α] (m : List α) (n : Nat)
    (hm : m.Nodup) :
    m.filter (fun x => decide (x ∉ m.take n)) = m.drop n := by
  have hd : ∀ a ∈ m.drop n, a ∉ m.take n := by
    intro a had hat
    have hsplit : (m.take n ++ m.drop n).Nodup := by
      rw [List.take_append_drop]; exact hm
    exact (List.nodup_append.mp hsplit).2.2 hat had
  have h := filter_not_mem_append (m.take n) (m.drop n) hd
  rwa [List.take_append_drop] at h

/-- Two successive filters commute. -/
theorem filter_comm_users (users : List UserRow) (p q : UserRow → Bool) :
    (users.filter p).filter q = (users.filter q).filter p := by
  rw [List.filter_filter, List.filter_filter]
  exact List.filter_congr (fun x _ => Bool.and_comm _ _)

/-- Full characterization of the batch-deletion loop on a duplicate-free user
table: it terminates with the total count of users matching the
stale-unverified condition added to the accumulator, and the table reduced to
exactly the non-matching users. Induction is on an upper bound of the table
size, since each non-empty batch strictly shrinks the table. -/
theorem delete_unverified_users_loop_spec (cutoff : Nat) (N : Nat) :
    ∀ (users : List UserRow) (deleted : Nat), users.length ≤ N → users.Nodup →
    delete_unverified_users_loop cutoff users deleted =
      (deleted + (users.filter (staleUnverified cutoff)).length,
       users.filter (fun u => !staleUnverified cutoff u)) := by
  induction N with
  | zero =>
    intro users deleted hlen _
    obtain rfl : users = [] := List.length_eq_zero.mp (Nat.le_zero.mp hlen)
    unfold delete_unverified_users_loop
    rfl
  | succ N ih =>
    intro users deleted hlen hnd
    unfold delete_unverified_users_loop
    split
    next hb =>
      have hfil : users.filter (staleUnverified cutoff) = [] := by
        rcases List.take_eq_nil_iff.mp hb with h | h
        · omega
        · exact h
      have hself : users.filter (fun u => !staleUnverified cutoff u) = users :=
        List.filter_eq_self.mpr
          (by intro a ha; simpa using List.filter_eq_nil_iff.mp hfil a ha)
      rw [hfil, hself]
      simp
    next b bs hb =>
      have hbsub : ∀ x ∈ b :: bs, x ∈ users.filter (staleUnverified cutoff) :=
        fun x hx => List.take_subset 100 _ (hb ▸ hx)
      have hbstale : ∀ x ∈ b :: bs, staleUnverified cutoff x = true :=
        fun x hx => (List.mem_filter.mp (hbsub x hx)).2
      have hbusers : b ∈ users :=
        (List.mem_filter.mp (hbsub b (List.mem_cons_self b bs))).1
      have hlt : (users.filter (fun u => decide (u ∉ b :: bs))).length < users.length :=
        length_filter_lt_of_mem_not hbusers (by simp)
      have hm : (users.filter (staleUnverified cutoff)).Nodup :=
        List.Nodup.filter _ hnd
      rw [ih _ _ (by omega) (List.Nodup.filter _ hnd)]
      have key := filter_not_mem_take (users.filter (staleUnverified cutoff)) 100 hm
      rw [hb] at key
      have h1 : (users.filter (fun u => decide (u ∉ b :: bs))).filter
          (staleUnverified cutoff) =
          (users.filter (staleUnverified cutoff)).drop 100 :=
        (filter_comm_users users _ _).trans key
      have h2 : (users.filter (fun u => decide (u ∉ b :: bs))).filter
          (fun u => !staleUnverified cutoff u) =
          users.filter (fun u => !staleUnverified cutoff u) := by
        rw [filter_comm_users users]
        refine List.filter_eq_self.mpr ?_
        intro a ha
        have ha' := List.mem_filter.mp ha
        simp only [decide_eq_true_eq]
        intro hmem
        have := hbstale a hmem
        simp [this] at ha'
      simp only [Prod.mk.injEq]
      refine ⟨?_, h2⟩
      rw [h1, ← hb, List.length_take, List.length_drop]
      have := List.length_filter_le (staleUnverified cutoff) users
      omega

/-- C8: the stale-unverified purge terminates on every finite store (the loop
definition is total) with a deleted count equal to the number of users that
are unverified and older than the cutoff, and the surviving users are exactly
those that are verified or created within the cutoff — none of them is ever
deleted. Uniqueness of user rows (`hnd`) reflects the primary-key
constraint. -/
theorem C8_delete_unverified_users_spec (db : DB) (now days_old : Nat)
    (hnd : db.users.Nodup) :
    delete_unverified_users db now days_old =
      ((db.users.filter (staleUnverified (now - 86400 * days_old))).length,
       { db with users :=
           db.users.filter (fun u => !staleUnverified (now - 86400 * days_old) u) }) := by
  unfold delete_unverified_users
  rw [delete_unverified_users_loop_spec (now - 86400 * days_old) db.users.length
    db.users 0 le_rfl hnd]
  simp

/-- Users for the C8 witness: one stale unverified, one verified, one
recently created unverified. -/
def sampleStaleUser : UserRow :=
  { id := 1, email := "a@x.com", hashed_password := "pw", is_verified := false
    created_at := 0 }

/-- A verified user, never purged. -/
def sampleOldVerifiedUser : UserRow :=
  { id := 2, email := "b@x.com", hashed_password := "pw", is_verified := true
    created_at := 0 }

/-- An unverified but recent user, not yet purgeable. -/
def sampleRecentUser : UserRow :=
  { id := 3, email := "c@x.com", hashed_password := "pw", is_verified := false
    created_at := 86400 * 11 }

/-- C8, witness: with days_old = 2 at time 86400*12 the purge deletes exactly
the one stale unverified user and keeps the verified and the recent one. -/
theorem C8_witness :
    delete_unverified_users
      { users := [sampleStaleUser, sampleOldVerifiedUser, sampleRecentUser]
        refresh_tokens := [], verification_tokens := [] }
      (86400 * 12) 2 =
      (1, { users := [sampleOldVerifiedUser, sampleRecentUser]
            refresh_tokens := [], verification_tokens := [] }) := by
  rw [C8_delete_unverified_users_spec
    { users := [sampleStaleUser, sampleOldVerifiedUser, sampleRecentUser]
      refresh_tokens := [], verification_tokens := [] }
    (86400 * 12) 2 (by decide)]
  rfl

end CoffeeShop
